import Mathlib

/-!
Verification of the retrieval metrics (RetrievalMRR, RetrievalRecall) and the
FBeta/F1 configuration, top-k and weighted-reduction behaviour of the
torchmetrics excerpt.  Tensors of scores are embedded as `List ℚ`, integer
target tensors as `List Int`, boolean target tensors as `List Bool`.
Fallible operations return `MRes`, an explicit ok/error sum.
-/

namespace Torchmetrics

/-- Result of a fallible operation: either a value or a raised `ValueError`
carrying its message. -/
inductive MRes (α : Type) where
  | ok : α → MRes α
  | err : String → MRes α
  deriving DecidableEq

/-- Rows of one retrieval query, each a prediction score paired with its
(boolean) target, sorted by prediction score in descending order.
`insertionSort` is stable, so rows with equal scores keep their buffer order. -/
def sortDescRows (rows : List (ℚ × Bool)) : List (ℚ × Bool) :=
  List.insertionSort (fun a b => b.1 ≤ a.1) rows

/-- Index of the first row whose target is true, in a list of
(score, target) rows; `none` when no row has a true target. -/
def firstRelIdx : List (ℚ × Bool) → Option Nat
  | [] => none
  | p :: l => if p.2 then some 0 else (firstRelIdx l).map (· + 1)

/-- Modelled from the spec: the functional `retrieval_reciprocal_rank`
(`torchmetrics/functional/retrieval/reciprocal_rank.py` is not under src/).
Spec §4.6: sort descending by preds, find the first index where target is
true, return 1/(rank+1); if no relevant item, return 0. -/
def retrieval_reciprocal_rank (preds : List ℚ) (target : List Bool) : ℚ :=
  match firstRelIdx (sortDescRows (preds.zip target)) with
  | some r => 1 / ((r : ℚ) + 1)
  | none => 0

/-- Modelled from the spec: the functional `retrieval_recall`
(`torchmetrics/functional/retrieval/recall.py` is not under src/).
Spec §4.7: if target has zero positives return NaN (embedded as `none`);
else sort descending by preds, count positives among the top `k` rows
(`k` defaults to the full length), divide by the total number of positives. -/
def retrieval_recall (preds : List ℚ) (target : List Bool) (k : Option Nat) : Option ℚ :=
  if target.count true = 0 then none
  else
    some ((((sortDescRows (preds.zip target)).take (k.getD preds.length)).countP
        (fun p => p.2) : ℚ) / (target.count true : ℚ))

/-- Embedding of the reference implementation `_recall_at_k` from
src/tests/retrieval/test_recall.py: `k` defaults to `len(preds)`; when
`target.sum() > 0` sort descending by preds, count true targets among the
first `k` and divide by `target.sum()`; otherwise NaN (embedded as `none`). -/
def recall_at_k (target : List Bool) (preds : List ℚ) (k : Option Nat) : Option ℚ :=
  let kk : Nat := match k with | none => preds.length | some v => v
  if 0 < target.count true then
    some ((((((sortDescRows (preds.zip target)).map Prod.snd).take kk).count true : Nat) : ℚ) /
      (target.count true : ℚ))
  else none

/-- A buffered target entry viewed as a boolean relevance flag
(PyTorch boolean coercion: nonzero is true). -/
def intToBool (t : Int) : Bool := t ≠ 0

/-- Embedding of `RetrievalMRR._metric`
(src/torchmetrics/retrieval/mean_reciprocal_rank.py lines 71-73): keep the
rows whose target differs from `exclude`, then apply the functional
reciprocal rank to the kept rows. -/
def RetrievalMRR.metricFn (exclude : Int) (preds : List ℚ) (target : List Int) : ℚ :=
  let valid := (preds.zip target).filter (fun r => r.2 ≠ exclude)
  retrieval_reciprocal_rank (valid.map Prod.fst) ((valid.map Prod.snd).map intToBool)

/-- Embedding of `RetrievalRecall._metric`
(src/torchmetrics/retrieval/retrieval_recall.py lines 97-99): keep the rows
whose target differs from `exclude`, then apply the functional recall with
the configured `k` to the kept rows. -/
def RetrievalRecall.metricFn (exclude : Int) (k : Option Nat) (preds : List ℚ)
    (target : List Int) : Option ℚ :=
  let valid := (preds.zip target).filter (fun r => r.2 ≠ exclude)
  retrieval_recall (valid.map Prod.fst) ((valid.map Prod.snd).map intToBool) k

/-- The `empty_target_action` configuration enumeration (spec §6). -/
inductive EmptyTargetAction where
  | skip
  | error
  | pos
  | neg
  deriving DecidableEq

/-- A buffered retrieval row: (query index, prediction score, target). -/
abbrev Row : Type := Int × ℚ × Int

/-- Rows whose target differs from the `exclude` sentinel; the others are
filtered out entirely (spec §4.5). -/
def validRows (exclude : Int) (rows : List Row) : List Row :=
  rows.filter (fun r => r.2.2 ≠ exclude)

/-- The distinct query indexes of a row buffer, in order of first occurrence. -/
def uniqueKeys (rows : List Row) : List Int :=
  (rows.map (fun r => r.1)).foldl (fun acc i => if i ∈ acc then acc else acc ++ [i]) []

/-- Group a row buffer by query index, preserving the rows of each query
(spec §4.5 step 1). -/
def groupByIndex (rows : List Row) : List (List (ℚ × Int)) :=
  (uniqueKeys rows).map (fun i => (rows.filter (fun r => r.1 = i)).map (fun r => r.2))

/-- Number of positive targets within one query's rows (spec §4.5 step 2). -/
def posCount (q : List (ℚ × Int)) : Nat :=
  q.countP (fun r => decide (0 < r.2))

/-- Message of the `ValueError` raised under `empty_target_action = 'error'`. -/
def emptyTargetErrorMsg : String :=
  "`compute` method was provided with a query without positive target."

/-- Modelled from the spec: the per-query dispatch of
`RetrievalMetric.compute` (`retrieval_metric.py` is not under src/).
Spec §4.5 step 2: a query with no positive target is handled by
`empty_target_action` (`skip` contributes nothing, `error` raises, `pos`
contributes 1.0, `neg` contributes 0.0); otherwise the per-query metric
function is applied.  A skipped query yields `none`. -/
def queryContribution (act : EmptyTargetAction) (metricF : List ℚ → List Int → ℚ)
    (q : List (ℚ × Int)) : MRes (Option ℚ) :=
  if posCount q = 0 then
    match act with
    | .skip => .ok none
    | .error => .err emptyTargetErrorMsg
    | .pos => .ok (some 1)
    | .neg => .ok (some 0)
  else .ok (some (metricF (q.map Prod.fst) (q.map Prod.snd)))

/-- Contributions of all queries, propagating a raised error. -/
def collectContributions (act : EmptyTargetAction) (metricF : List ℚ → List Int → ℚ) :
    List (List (ℚ × Int)) → MRes (List (Option ℚ))
  | [] => .ok []
  | q :: qs =>
    match queryContribution act metricF q, collectContributions act metricF qs with
    | .err e, _ => .err e
    | .ok _, .err e => .err e
    | .ok c, .ok cs => .ok (c :: cs)

/-- Arithmetic mean of a list of rationals. -/
def listMean (l : List ℚ) : ℚ := l.sum / (l.length : ℚ)

/-- Modelled from the spec: `RetrievalMetric.compute`
(`torchmetrics/retrieval/retrieval_metric.py` is not under src/).
Spec §4.5: rows whose target equals the `exclude` sentinel are filtered out
entirely before grouping; the remaining rows are grouped by query index;
each query contributes per `queryContribution`; the result is the
arithmetic mean of the contributions, or 0.0 when every query was skipped. -/
def computeRetrieval (act : EmptyTargetAction) (exclude : Int)
    (metricF : List ℚ → List Int → ℚ) (rows : List Row) : MRes ℚ :=
  match collectContributions act metricF (groupByIndex (validRows exclude rows)) with
  | .err e => .err e
  | .ok contribs =>
    if contribs.reduceOption.length = 0 then .ok 0
    else .ok (listMean contribs.reduceOption)

/-- The per-query function of `RetrievalRecall` as consumed by the base
class: the NaN value of the functional recall can only arise on a query
with no positive target, which the base class never passes on, so it is
mapped to 0 to fit the ℚ-valued interface. -/
def RetrievalRecall.metricFnQ (exclude : Int) (k : Option Nat) (preds : List ℚ)
    (target : List Int) : ℚ :=
  (RetrievalRecall.metricFn exclude k preds target).getD 0

/-- A Python value passed as the `k` constructor argument of
`RetrievalRecall` (an `int`, a `bool`, a `float`, or `None`). -/
inductive PyVal where
  | pyNone : PyVal
  | pyInt : Int → PyVal
  | pyBool : Bool → PyVal
  | pyFloat : ℚ → PyVal
  deriving DecidableEq

/-- Python `isinstance(k, int)`: `bool` is a subclass of `int`, so both
`int` and `bool` values satisfy it; `float` and `None` do not. -/
def isinstanceInt : PyVal → Bool
  | .pyInt _ => true
  | .pyBool _ => true
  | _ => false

/-- Integer value of a Python `int` or `bool` (`True` is 1, `False` is 0);
only consulted after `isinstanceInt` holds. -/
def pyIntVal : PyVal → Int
  | .pyInt n => n
  | .pyBool b => if b then 1 else 0
  | _ => 0

/-- Embedding of the `k` validation in `RetrievalRecall.__init__`
(src/torchmetrics/retrieval/retrieval_recall.py lines 93-95):
`if (k is not None) and not (isinstance(k, int) and k > 0)` raise
`ValueError`, else store `self.k = k`.  It is a pure function of the
configuration value, run before any data is seen. -/
def RetrievalRecall.validateK (k : PyVal) : MRes PyVal :=
  if k ≠ PyVal.pyNone ∧ ¬(isinstanceInt k = true ∧ 0 < pyIntVal k) then
    .err "`k` has to be a positive integer or None"
  else .ok k

/-- Conversion of a stored Python `k` to the `Option Nat` consumed by the
functional recall: `None` keeps the default, any integer-like value is used
as a slice bound (Python `True` slices as the integer 1). -/
def pyKToOpt : PyVal → Option Nat
  | .pyNone => none
  | v => some (pyIntVal v).toNat

/-- Modelled from the spec: top-k selection of the Input Normalizer
(§6, §2; the normalizer source is not under src/): position `i` of a score
row is marked predicted-positive when fewer than `k` positions rank
strictly before it, ranking by score descending with ties broken by
position (a stable top-k with exactly `k` ones per row of length ≥ k). -/
def topKSelect (k : Nat) (row : List ℚ) : List Bool :=
  row.enum.map (fun iv =>
    decide (row.enum.countP
      (fun jw => decide (iv.2 < jw.2 ∨ (jw.2 = iv.2 ∧ jw.1 < iv.1))) < k))

/-- One-hot encoding of a class label over `numClasses` classes (§6). -/
def oneHot (numClasses : Nat) (c : Nat) : List Bool :=
  (List.range numClasses).map (fun j => decide (j = c))

/-- Modelled from the spec: the Stat Accumulator's micro counts (§4.1, §4.2
step `micro`; the StatScores source is not under src/): total true
positives, false positives and false negatives over all samples and
classes of canonical one-hot preds/target. -/
def microCounts (preds target : List (List Bool)) : Nat × Nat × Nat :=
  ((preds.zip target).map (fun rt =>
      let pr := rt.1.zip rt.2
      (pr.countP (fun r => r.1 && r.2),
       pr.countP (fun r => r.1 && !r.2),
       pr.countP (fun r => !r.1 && r.2)))).foldl
    (fun a b => (a.1 + b.1, a.2.1 + b.2.1, a.2.2 + b.2.2)) (0, 0, 0)

/-- Modelled from the spec: the F-beta formula with zero-division fallback
(§4.2 steps 1-2): (1+β²)·tp / ((1+β²)·tp + β²·fn + fp), or 0 when the
denominator is 0. -/
def fbetaFormula (beta : ℚ) (tp fp fn : Nat) : ℚ :=
  if (1 + beta ^ 2) * tp + beta ^ 2 * fn + fp = 0 then 0
  else (1 + beta ^ 2) * tp / ((1 + beta ^ 2) * tp + beta ^ 2 * fn + fp)

/-- Modelled from the spec: the functional micro-averaged F-beta with top-k
selection (§4.2 `micro`, §4.4; the fbeta source is not under src/), on
multiclass probability preds and label targets. -/
def fbetaMicroTopK (beta : ℚ) (k numClasses : Nat) (preds : List (List ℚ))
    (target : List Nat) : ℚ :=
  let s := microCounts (preds.map (topKSelect k)) (target.map (oneHot numClasses))
  fbetaFormula beta s.1 s.2.1 s.2.2

/-- Accumulator state of the stateful micro-averaged FBeta metric:
summed micro counts (spec §4.3). -/
structure MicroState where
  tp : Nat
  fp : Nat
  fn : Nat
  deriving DecidableEq

/-- Fresh accumulator state (all counts zero). -/
def MicroState.init : MicroState := ⟨0, 0, 0⟩

/-- Modelled from the spec: `update` of the stateful metric (§4.3):
normalize the batch (top-k one-hot preds, one-hot target), compute its
micro counts and add them into the state. -/
def MicroState.update (st : MicroState) (k numClasses : Nat)
    (preds : List (List ℚ)) (target : List Nat) : MicroState :=
  let s := microCounts (preds.map (topKSelect k)) (target.map (oneHot numClasses))
  ⟨st.tp + s.1, st.fp + s.2.1, st.fn + s.2.2⟩

/-- Modelled from the spec: `compute` of the stateful micro FBeta metric
(§4.3): apply the reduction formula to the accumulated counts. -/
def MicroState.compute (beta : ℚ) (st : MicroState) : ℚ :=
  fbetaFormula beta st.tp st.fp st.fn

/-- The `average` values the spec allows (§6). -/
def allowedAverages : List String := ["micro", "macro", "weighted", "samples", "none"]

/-- The `mdmc_average` values the spec allows (§6). -/
def allowedMdmcAverages : List (Option String) := [none, some "global", some "samplewise"]

/-- Modelled from the spec: construction-time validation of FBeta/F1
(§4.3 validation failures; the FBeta/StatScores source is not under src/,
only its tests): an unknown `average` raises naming `average`, an
unknown `mdmc_average` raises naming `mdmc_average`, an `average`
that needs per-class scores without `num_classes` raises naming the number
of classes, and an `ignore_index` outside the valid range for the given
`num_classes` (which requires at least 2 classes) raises naming
`ignore_index`.  It is a pure function of the configuration, run before
any data is processed. -/
def FBeta.validateArgs (average : String) (mdmcAverage : Option String)
    (numClasses : Option Nat) (ignoreIndex : Option Nat) : MRes Unit :=
  if average ∉ allowedAverages then
    .err "The `average` has to be one of the allowed values"
  else if mdmcAverage ∉ allowedMdmcAverages then
    .err "The `mdmc_average` has to be one of the allowed values"
  else if (average = "macro" ∨ average = "weighted" ∨ average = "none") ∧ numClasses = none then
    .err "When you set average as macro or weighted, you have to provide the number of classes"
  else
    match numClasses, ignoreIndex with
    | some c, some ig => if ig < c ∧ 1 < c then .ok () else
        .err "The `ignore_index` param is not valid for the given number of classes"
    | _, _ => .ok ()

/-- Per-class stat tuple of the Stat Accumulator (spec §4.1):
true positives, false positives, false negatives of one class. -/
structure ClassStats where
  tp : Nat
  fp : Nat
  fn : Nat
  deriving DecidableEq

/-- Support of a class: its count of true target occurrences, tp + fn
(spec §4.1, glossary). -/
def ClassStats.support (s : ClassStats) : Nat := s.tp + s.fn

/-- Per-class F-beta score with the zero-division fallback (spec §4.2). -/
def perClassScore (beta : ℚ) (s : ClassStats) : ℚ :=
  fbetaFormula beta s.tp s.fp s.fn

/-- The classes kept by the reduction: every class except `ignoreIndex`
(spec §4.1). -/
def keptStats (ignoreIndex : Option Nat) (stats : List ClassStats) : List ClassStats :=
  (stats.enum.filter (fun p => ¬ ignoreIndex = some p.1)).map Prod.snd

/-- Modelled from the spec: the `weighted` reduction (§4.2 step 3; the
reduction source is not under src/): mean of per-class scores weighted by
per-class support, with an explicit override — when the total support of
the kept classes is 0 the result is 0, not the undefined weighted mean. -/
def fbetaWeighted (beta : ℚ) (ignoreIndex : Option Nat) (stats : List ClassStats) : ℚ :=
  let kept := keptStats ignoreIndex stats
  if (kept.map ClassStats.support).sum = 0 then 0
  else (kept.map (fun s => (ClassStats.support s : ℚ) * perClassScore beta s)).sum /
    ((kept.map ClassStats.support).sum : ℚ)

/-- The general weighted-mean formula without the override: undefined
(the NaN of a 0/0, embedded as `none`) when the total weight is zero. -/
def weightedMeanOpt (beta : ℚ) (kept : List ClassStats) : Option ℚ :=
  if (kept.map ClassStats.support).sum = 0 then none
  else some ((kept.map (fun s => (ClassStats.support s : ℚ) * perClassScore beta s)).sum /
    ((kept.map ClassStats.support).sum : ℚ))

/-- Per-class stats of one batch of label preds/targets (spec §4.1). -/
def statsFromLabels (numClasses : Nat) (preds target : List Nat) : List ClassStats :=
  (List.range numClasses).map (fun c =>
    ⟨(preds.zip target).countP (fun r => decide (r.1 = c ∧ r.2 = c)),
     (preds.zip target).countP (fun r => decide (r.1 = c ∧ ¬ r.2 = c)),
     (preds.zip target).countP (fun r => decide (¬ r.1 = c ∧ r.2 = c))⟩)

/-- Fresh per-class accumulator state: zero stats for each class (§4.3). -/
def initStats (numClasses : Nat) : List ClassStats :=
  (List.range numClasses).map (fun _ => ⟨0, 0, 0⟩)

/-- Stateful update of the per-class metric: elementwise sum of the batch
stats into the state (spec §4.3). -/
def updateStats (st batch : List ClassStats) : List ClassStats :=
  st.zipWith (fun a b => ⟨a.tp + b.tp, a.fp + b.fp, a.fn + b.fn⟩) batch

/-- The multiclass probability preds of the top-k example
(src/tests/classification/test_f_beta.py line 301). -/
def mcPreds : List (List ℚ) := [[0.35, 0.4, 0.25], [0.1, 0.5, 0.4], [0.2, 0.1, 0.7]]

/-- The label targets of the top-k example
(src/tests/classification/test_f_beta.py line 300). -/
def mcTarget : List Nat := [0, 1, 2]

theorem firstRelIdx_eq_none (l : List (ℚ × Bool)) :
    firstRelIdx l = none ↔ ∀ p ∈ l, p.2 = false := by
  induction l with
  | nil => simp [firstRelIdx]
  | cons p l ih =>
    by_cases hp : p.2
    · simp [firstRelIdx, hp]
    · simp only [Bool.not_eq_true] at hp
      simp [firstRelIdx, hp, Option.map_eq_none', ih]

theorem firstRelIdx_eq_some (l : List (ℚ × Bool)) (r : Nat) (hr : r < l.length)
    (ht : (l.get ⟨r, hr⟩).2 = true) (hf : ∀ p ∈ l.take r, p.2 = false) :
    firstRelIdx l = some r := by
  induction l generalizing r with
  | nil => exact absurd hr (Nat.not_lt_zero r)
  | cons p l ih =>
    cases r with
    | zero =>
      simp only [List.get] at ht
      simp [firstRelIdx, ht]
    | succ r =>
      have hp : p.2 = false := hf p (by simp [List.take_succ_cons])
      have hf' : ∀ q ∈ l.take r, q.2 = false := by
        intro q hq
        exact hf q (by simp [List.take_succ_cons, hq])
      have hr' : r < l.length := Nat.lt_of_succ_lt_succ hr
      have := ih r hr' ht hf'
      simp [firstRelIdx, hp, this]

/-- C2: for every (preds, target) pair given to the MRR per-query metric
function, the result equals 1/(r+1) where r is the 0-based position of the
first row whose target is true after sorting the rows by preds in
descending order; if no row has a true target, the result is 0. -/
theorem reciprocal_rank_of_first_relevant (preds : List ℚ) (target : List Bool) :
    ((∀ p ∈ preds.zip target, p.2 = false) → retrieval_reciprocal_rank preds target = 0) ∧
    (∀ r, ∀ hr : r < (sortDescRows (preds.zip target)).length,
      ((sortDescRows (preds.zip target)).get ⟨r, hr⟩).2 = true →
      (∀ p ∈ (sortDescRows (preds.zip target)).take r, p.2 = false) →
      retrieval_reciprocal_rank preds target = 1 / ((r : ℚ) + 1)) := by
  constructor
  · intro h
    have hall : ∀ p ∈ sortDescRows (preds.zip target), p.2 = false := by
      intro p hp
      exact h p ((List.perm_insertionSort _ _).mem_iff.mp hp)
    unfold retrieval_reciprocal_rank
    rw [(firstRelIdx_eq_none _).mpr hall]
  · intro r hr ht hf
    unfold retrieval_reciprocal_rank
    rw [firstRelIdx_eq_some _ r hr ht hf]

/-- Witness for C2: preds [2, 3, 5], target [false, false, true]; the single
relevant row has the highest score, so the reciprocal rank is 1/(0+1). -/
theorem reciprocal_rank_of_first_relevant_witness :
    (0 < (sortDescRows ([(2 : ℚ), 3, 5].zip [false, false, true])).length) ∧
    retrieval_reciprocal_rank [(2 : ℚ), 3, 5] [false, false, true] = 1 / (((0 : Nat) : ℚ) + 1) :=
  ⟨by decide,
    (reciprocal_rank_of_first_relevant [(2 : ℚ), 3, 5] [false, false, true]).2 0
      (by decide) (by decide) (by decide)⟩

/-- C3: the Recall@K per-query metric function returns NaN (none) when the
target has no positive entry; otherwise the number of positive targets
among the k highest-scored rows divided by the total number of positive
targets, with k defaulting to the full row count; and it agrees with the
reference implementation `_recall_at_k` of src/tests/retrieval/test_recall.py. -/
theorem recall_fraction_of_top_k (preds : List ℚ) (target : List Bool) (k : Option Nat) :
    (target.count true = 0 → retrieval_recall preds target k = none) ∧
    (0 < target.count true →
      retrieval_recall preds target k =
        some ((((sortDescRows (preds.zip target)).take (k.getD preds.length)).countP
            (fun p => p.2) : ℚ) / (target.count true : ℚ))) ∧
    retrieval_recall preds target none = retrieval_recall preds target (some preds.length) ∧
    retrieval_recall preds target k = recall_at_k target preds k := by
  refine ⟨?_, ?_, ?_, ?_⟩
  · intro h
    simp [retrieval_recall, h]
  · intro h
    simp [retrieval_recall, Nat.pos_iff_ne_zero.mp h]
  · rfl
  · unfold retrieval_recall recall_at_k
    rcases Nat.eq_zero_or_pos (target.count true) with h | h
    · simp [h]
    · have hne := Nat.pos_iff_ne_zero.mp h
      cases k with
      | none =>
        simp only [hne, if_false, h, if_true, Option.getD, ← List.map_take,
          List.count_eq_countP, List.countP_map]
        simp [Function.comp_def]
      | some v =>
        simp only [hne, if_false, h, if_true, Option.getD, ← List.map_take,
          List.count_eq_countP, List.countP_map]
        simp [Function.comp_def]

/-- Witness for C3: an all-negative target yields NaN (none); a target with
two positives and k = 2 yields the top-2 positive count over 2. -/
theorem recall_fraction_of_top_k_witness :
    (([false] : List Bool).count true = 0 ∧
      retrieval_recall [(1 : ℚ)] [false] (some 1) = none) ∧
    (0 < ([true, false, true] : List Bool).count true ∧
      retrieval_recall [(3 : ℚ), 1, 2] [true, false, true] (some 2) =
        some ((((sortDescRows ([(3 : ℚ), 1, 2].zip [true, false, true])).take
            ((some 2).getD ([(3 : ℚ), 1, 2].length))).countP
          (fun p => p.2) : ℚ) / (([true, false, true] : List Bool).count true : ℚ))) :=
  ⟨⟨by decide, (recall_fraction_of_top_k [(1 : ℚ)] [false] (some 1)).1 (by decide)⟩,
   ⟨by decide, (recall_fraction_of_top_k [(3 : ℚ), 1, 2] [true, false, true] (some 2)).2.1
      (by decide)⟩⟩

theorem validRows_insert_excluded (exclude i : Int) (p : ℚ)
    (rows₁ rows₂ : List Row) :
    validRows exclude (rows₁ ++ (i, p, exclude) :: rows₂) =
      validRows exclude (rows₁ ++ rows₂) := by
  simp [validRows, List.filter_append]

/-- C1: in RetrievalMRR and RetrievalRecall, a buffered row whose target
equals the configured `exclude` sentinel is removed before any per-query
computation — inserting such a row anywhere in the buffer leaves the
computed result (per-query metric values and the query-emptiness check
alike) unchanged. -/
theorem exclude_rows_removed_before_query_computation
    (act : EmptyTargetAction) (exclude i : Int) (p : ℚ) (t : Int) (k : Option Nat)
    (rows₁ rows₂ : List Row) (ht : t = exclude) :
    computeRetrieval act exclude (RetrievalMRR.metricFn exclude)
        (rows₁ ++ (i, p, t) :: rows₂) =
      computeRetrieval act exclude (RetrievalMRR.metricFn exclude) (rows₁ ++ rows₂) ∧
    computeRetrieval act exclude (RetrievalRecall.metricFnQ exclude k)
        (rows₁ ++ (i, p, t) :: rows₂) =
      computeRetrieval act exclude (RetrievalRecall.metricFnQ exclude k) (rows₁ ++ rows₂) := by
  subst ht
  constructor
  · unfold computeRetrieval
    rw [validRows_insert_excluded]
  · unfold computeRetrieval
    rw [validRows_insert_excluded]

/-- Witness for C1: inserting the row (index 0, score 1, target -100) into a
one-row buffer leaves both metrics' compute unchanged. -/
theorem exclude_rows_removed_before_query_computation_witness :
    ((-100 : Int) = -100) ∧
    computeRetrieval .skip (-100) (RetrievalMRR.metricFn (-100))
        ([] ++ ((0 : Int), (1 : ℚ), (-100 : Int)) :: [((0 : Int), (2 : ℚ), (1 : Int))]) =
      computeRetrieval .skip (-100) (RetrievalMRR.metricFn (-100))
        ([] ++ [((0 : Int), (2 : ℚ), (1 : Int))]) ∧
    computeRetrieval .skip (-100) (RetrievalRecall.metricFnQ (-100) none)
        ([] ++ ((0 : Int), (1 : ℚ), (-100 : Int)) :: [((0 : Int), (2 : ℚ), (1 : Int))]) =
      computeRetrieval .skip (-100) (RetrievalRecall.metricFnQ (-100) none)
        ([] ++ [((0 : Int), (2 : ℚ), (1 : Int))]) :=
  ⟨rfl,
    (exclude_rows_removed_before_query_computation .skip (-100) 0 1 (-100) none
      [] [((0 : Int), (2 : ℚ), (1 : Int))] rfl).1,
    (exclude_rows_removed_before_query_computation .skip (-100) 0 1 (-100) none
      [] [((0 : Int), (2 : ℚ), (1 : Int))] rfl).2⟩

/-- C4: a query with no positive target is handled by `empty_target_action`
(skip contributes nothing, error raises a validation failure, pos
contributes 1.0, neg contributes 0.0); a query with a positive target
contributes its per-query metric value; and compute returns the arithmetic
mean of the non-skipped contributions, or 0.0 when none remain. -/
theorem empty_target_action_policy (act : EmptyTargetAction)
    (metricF : List ℚ → List Int → ℚ) (exclude : Int)
    (q : List (ℚ × Int)) (rows : List Row) :
    (posCount q = 0 →
      queryContribution .skip metricF q = .ok none ∧
      queryContribution .error metricF q = .err emptyTargetErrorMsg ∧
      queryContribution .pos metricF q = .ok (some 1) ∧
      queryContribution .neg metricF q = .ok (some 0)) ∧
    (0 < posCount q →
      queryContribution act metricF q =
        .ok (some (metricF (q.map Prod.fst) (q.map Prod.snd)))) ∧
    (∀ contribs,
      collectContributions act metricF (groupByIndex (validRows exclude rows)) =
        .ok contribs →
      computeRetrieval act exclude metricF rows =
        (if contribs.reduceOption.length = 0 then .ok 0
         else .ok (listMean contribs.reduceOption))) := by
  refine ⟨?_, ?_, ?_⟩
  · intro h
    exact ⟨by simp [queryContribution, h], by simp [queryContribution, h],
      by simp [queryContribution, h], by simp [queryContribution, h]⟩
  · intro h
    simp [queryContribution, Nat.pos_iff_ne_zero.mp h]
  · intro contribs h
    unfold computeRetrieval
    rw [h]

/-- Witness for C4: a single query whose only row has target 0; under skip
the query is dropped and compute returns 0. -/
theorem empty_target_action_policy_witness :
    posCount [((1 : ℚ), (0 : Int))] = 0 ∧
    queryContribution .skip (RetrievalMRR.metricFn (-100)) [((1 : ℚ), (0 : Int))] = .ok none ∧
    computeRetrieval .skip (-100) (RetrievalMRR.metricFn (-100))
      [((0 : Int), (1 : ℚ), (0 : Int))] = .ok 0 :=
  ⟨by decide,
   ((empty_target_action_policy .skip (RetrievalMRR.metricFn (-100)) (-100)
      [((1 : ℚ), (0 : Int))] [((0 : Int), (1 : ℚ), (0 : Int))]).1 (by decide)).1,
   by
    have h := (empty_target_action_policy .skip (RetrievalMRR.metricFn (-100)) (-100)
      [((1 : ℚ), (0 : Int))] [((0 : Int), (1 : ℚ), (0 : Int))]).2.2 [none] (by decide)
    simpa using h⟩

/-- C5: constructing RetrievalRecall with a `k` that is neither None nor a
positive integer — a negative int, zero, or any float — raises a ValueError
whose message is exactly the string the claim quotes; `k = None` and
positive ints are accepted.  The check is a pure function of the
configuration, so it fires before any data is seen. -/
theorem recall_k_validation (n : Int) (q : ℚ) :
    RetrievalRecall.validateK (PyVal.pyInt (-1)) =
      .err "`k` has to be a positive integer or None" ∧
    RetrievalRecall.validateK (PyVal.pyFloat q) =
      .err "`k` has to be a positive integer or None" ∧
    RetrievalRecall.validateK PyVal.pyNone = .ok PyVal.pyNone ∧
    (0 < n → RetrievalRecall.validateK (PyVal.pyInt n) = .ok (PyVal.pyInt n)) ∧
    (n ≤ 0 → RetrievalRecall.validateK (PyVal.pyInt n) =
      .err "`k` has to be a positive integer or None") := by
  refine ⟨by decide, ?_, by decide, ?_, ?_⟩
  · simp [RetrievalRecall.validateK, isinstanceInt]
  · intro h
    simp [RetrievalRecall.validateK, isinstanceInt, pyIntVal, h]
  · intro h
    simp [RetrievalRecall.validateK, isinstanceInt, pyIntVal, not_lt.mpr h]

/-- Witness for C5: k = 3 is accepted, k = -1, k = 1.0 and k = 0 are
rejected with the documented message. -/
theorem recall_k_validation_witness :
    ((0 : Int) < 3 ∧
      RetrievalRecall.validateK (PyVal.pyInt 3) = .ok (PyVal.pyInt 3)) ∧
    ((0 : Int) ≤ 0 ∧
      RetrievalRecall.validateK (PyVal.pyInt 0) =
        .err "`k` has to be a positive integer or None") :=
  ⟨⟨by decide, (recall_k_validation 3 1).2.2.2.1 (by decide)⟩,
   ⟨by decide, (recall_k_validation 0 1).2.2.2.2 (by decide)⟩⟩

/-- C10: RetrievalRecall's `k` validation accepts `k = True` because Python's
bool is a subclass of int and True compares greater than 0; the accepted
value is stored and behaves exactly as `k = 1` in the recall computation. -/
theorem recall_k_true_accepted (preds : List ℚ) (target : List Bool) :
    RetrievalRecall.validateK (PyVal.pyBool true) = .ok (PyVal.pyBool true) ∧
    isinstanceInt (PyVal.pyBool true) = true ∧
    (0 : Int) < pyIntVal (PyVal.pyBool true) ∧
    pyKToOpt (PyVal.pyBool true) = pyKToOpt (PyVal.pyInt 1) ∧
    retrieval_recall preds target (pyKToOpt (PyVal.pyBool true)) =
      retrieval_recall preds target (some 1) := by
  refine ⟨by decide, by decide, by decide, rfl, rfl⟩

/-- C9: for boolean targets (entries in {0, 1}) under the default exclude
sentinel -100, the mask `target != exclude` keeps every row, so both
`_metric` methods compute the per-query metric on the unfiltered
(preds, target) pair: the exclude filtering is an identity operation.
Preds and target have equal length (data-model invariant, spec §3). -/
theorem bool_target_exclude_filter_identity (preds : List ℚ) (target : List Int)
    (k : Option Nat) (hlen : preds.length = target.length)
    (hb : ∀ t ∈ target, t = 0 ∨ t = 1) :
    (preds.zip target).filter (fun r => r.2 ≠ (-100 : Int)) = preds.zip target ∧
    RetrievalMRR.metricFn (-100) preds target =
      retrieval_reciprocal_rank preds (target.map intToBool) ∧
    RetrievalRecall.metricFn (-100) k preds target =
      retrieval_recall preds (target.map intToBool) k := by
  have hfilter : (preds.zip target).filter (fun r => r.2 ≠ (-100 : Int)) = preds.zip target := by
    rw [List.filter_eq_self]
    intro a ha
    rcases hb a.2 (List.of_mem_zip ha).2 with h | h <;> simp [h]
  have hfst : (preds.zip target).map Prod.fst = preds :=
    List.map_fst_zip preds target (le_of_eq hlen)
  have hsnd : (preds.zip target).map Prod.snd = target :=
    List.map_snd_zip preds target (ge_of_eq hlen)
  refine ⟨hfilter, ?_, ?_⟩
  · unfold RetrievalMRR.metricFn
    simp only [hfilter, hfst, hsnd]
  · unfold RetrievalRecall.metricFn
    simp only [hfilter, hfst, hsnd]

/-- Witness for C9: preds [1, 2], boolean target [0, 1]; the filter keeps
both rows and both metrics equal the unfiltered functional value. -/
theorem bool_target_exclude_filter_identity_witness :
    (([(1 : ℚ), 2].length = ([0, 1] : List Int).length) ∧
      (∀ t ∈ ([0, 1] : List Int), t = 0 ∨ t = 1)) ∧
    ([(1 : ℚ), 2].zip ([0, 1] : List Int)).filter (fun r => r.2 ≠ (-100 : Int)) =
      [(1 : ℚ), 2].zip ([0, 1] : List Int) ∧
    RetrievalMRR.metricFn (-100) [(1 : ℚ), 2] ([0, 1] : List Int) =
      retrieval_reciprocal_rank [(1 : ℚ), 2] (([0, 1] : List Int).map intToBool) ∧
    RetrievalRecall.metricFn (-100) none [(1 : ℚ), 2] ([0, 1] : List Int) =
      retrieval_recall [(1 : ℚ), 2] (([0, 1] : List Int).map intToBool) none :=
  ⟨⟨by decide, by decide⟩,
    bool_target_exclude_filter_identity [(1 : ℚ), 2] ([0, 1] : List Int) none
      (by decide) (by decide)⟩

set_option maxRecDepth 8192

/-- C7: FBeta/F1 configuration validation fails with a ValueError naming the
offending parameter: unknown `average` mentions the word average in
backticks, unknown `mdmc_average` mentions mdmc, macro averaging without `num_classes`
mentions "number of classes", and `ignore_index = 0` with `num_classes = 1`
mentions "ignore_index"; validation is a pure function of the
configuration, so it fires before any data is processed. -/
theorem fbeta_config_validation :
    (FBeta.validateArgs "wrong" none none none =
        .err "The `average` has to be one of the allowed values" ∧
      "`average`".toList <:+: "The `average` has to be one of the allowed values".toList) ∧
    (FBeta.validateArgs "micro" (some "wrong") none none =
        .err "The `mdmc_average` has to be one of the allowed values" ∧
      "`mdmc".toList <:+: "The `mdmc_average` has to be one of the allowed values".toList) ∧
    (FBeta.validateArgs "macro" none none none =
        .err "When you set average as macro or weighted, you have to provide the number of classes" ∧
      "number of classes".toList <:+:
        "When you set average as macro or weighted, you have to provide the number of classes".toList) ∧
    (FBeta.validateArgs "macro" none (some 1) (some 0) =
        .err "The `ignore_index` param is not valid for the given number of classes" ∧
      "ignore_index".toList <:+:
        "The `ignore_index` param is not valid for the given number of classes".toList) ∧
    FBeta.validateArgs "micro" none none none = .ok () := by
  refine ⟨⟨by decide, by decide⟩, ⟨by decide, by decide⟩, ⟨by decide, by decide⟩,
    ⟨by decide, by decide⟩, by decide⟩

/-- C8: the weighted FBeta reduction returns exactly 0 whenever the kept
classes' total support is 0 (where the unguarded weighted mean would be the
NaN of 0/0), in particular for the test_no_support batch preds [1,1,0,0],
target [0,0,0,0], num_classes 2, ignore_index 0 — functionally and after
one stateful update. -/
theorem fbeta_weighted_zero_support (beta : ℚ) (ig : Option Nat)
    (stats : List ClassStats) :
    (((keptStats ig stats).map ClassStats.support).sum = 0 →
      fbetaWeighted beta ig stats = 0 ∧
      weightedMeanOpt beta (keptStats ig stats) = none) ∧
    fbetaWeighted beta (some 0) (statsFromLabels 2 [1, 1, 0, 0] [0, 0, 0, 0]) = 0 ∧
    fbetaWeighted beta (some 0)
      (updateStats (initStats 2) (statsFromLabels 2 [1, 1, 0, 0] [0, 0, 0, 0])) = 0 := by
  refine ⟨fun h => ⟨by simp [fbetaWeighted, h], by simp [weightedMeanOpt, h]⟩, ?_, ?_⟩
  · have h : ((keptStats (some 0) (statsFromLabels 2 [1, 1, 0, 0] [0, 0, 0, 0])).map
        ClassStats.support).sum = 0 := by decide
    simp [fbetaWeighted, h]
  · have h : ((keptStats (some 0) (updateStats (initStats 2)
        (statsFromLabels 2 [1, 1, 0, 0] [0, 0, 0, 0]))).map ClassStats.support).sum = 0 := by
      decide
    simp [fbetaWeighted, h]

/-- Witness for C8: a single class whose stats are one false positive has
support 0, so the weighted reduction yields 0 where the unguarded mean is
undefined. -/
theorem fbeta_weighted_zero_support_witness :
    ((keptStats none [({ tp := 0, fp := 1, fn := 0 } : ClassStats)]).map
        ClassStats.support).sum = 0 ∧
    fbetaWeighted 1 none [({ tp := 0, fp := 1, fn := 0 } : ClassStats)] = 0 ∧
    weightedMeanOpt 1 (keptStats none [({ tp := 0, fp := 1, fn := 0 } : ClassStats)]) = none :=
  ⟨by decide,
    ((fbeta_weighted_zero_support 1 none [({ tp := 0, fp := 1, fn := 0 } : ClassStats)]).1
      (by decide)).1,
    ((fbeta_weighted_zero_support 1 none [({ tp := 0, fp := 1, fn := 0 } : ClassStats)]).1
      (by decide)).2⟩

/-- C6: on preds [[0.35, 0.4, 0.25], [0.1, 0.5, 0.4], [0.2, 0.1, 0.7]],
target [0, 1, 2], num_classes 3, average micro, the F-beta score (beta 2,
the FBeta configuration of test_top_k) is 2/3 with top_k 1 and 5/6 with
top_k 2, both for the stateful metric after one update and for the
functional form. -/
theorem fbeta_top_k_example :
    fbetaMicroTopK 2 1 3 mcPreds mcTarget = 2 / 3 ∧
    fbetaMicroTopK 2 2 3 mcPreds mcTarget = 5 / 6 ∧
    MicroState.compute 2 (MicroState.init.update 1 3 mcPreds mcTarget) = 2 / 3 ∧
    MicroState.compute 2 (MicroState.init.update 2 3 mcPreds mcTarget) = 5 / 6 := by
  refine ⟨?_, ?_, ?_, ?_⟩ <;>
    norm_num [fbetaMicroTopK, MicroState.compute, MicroState.update, MicroState.init,
      mcPreds, mcTarget, topKSelect, oneHot, microCounts, fbetaFormula,
      List.enum, List.enumFrom, List.countP_cons, List.countP_nil, List.range_succ]

end Torchmetrics
